import Mathlib

/-!
Shallow embedding of the `specify` package (src/specify/param.py,
src/specify/specified.py, src/specify/types.py, src/specify/utils.py).

Python values stored in parameters are modelled by the scalar type `Value`;
`Value.none` plays the role of Python's `None`, which the code also uses as
the "unset" sentinel for descriptor slots.  Mutable Python objects
(descriptors) live in an explicit heap (`PyState.heap`) addressed by numeric
ids, so that object identity and sharing across classes can be stated.
`copy.deepcopy` on these scalar values is the identity and is modelled as
such.  Class dictionaries and instance `__dict__`s are association lists
with Python-dict update semantics (`aset` updates in place, preserving key
order, and appends new keys at the end).
-/

namespace Specify

/-- Scalar Python values appearing as parameter values and slot contents. -/
inductive Value where
  | none
  | int (n : Int)
  | str (s : String)
  | bool (b : Bool)
  deriving DecidableEq, Repr

/-- Python truthiness of a `Value` (used for `if self.constant:`). -/
def truthy : Value → Bool
  | Value.none => false
  | Value.int n => n ≠ 0
  | Value.str s => s ≠ ""
  | Value.bool b => b

/-- Exceptions raised by the modelled code paths. -/
inductive PyErr where
  /-- `KeyError` from `obj.__dict__[self.attrname]`. -/
  | keyError
  /-- `TypeError('Constant parameter ... cannot be modified')` in `Param.__set__`. -/
  | typeErrorConstant
  /-- `TypeError('No default value set ...')` in `Param.__get__` with `obj is None`. -/
  | typeErrorNoDefault
  /-- `TypeError: __init__() got an unexpected keyword argument` (hit by `Param.copy`). -/
  | typeErrorKwarg
  /-- `ValueError('instance Param conflict')` in `Specified.add_param`. -/
  | valueErrorConflict
  /-- `AttributeError` from `Param._set_names` on a name conflict. -/
  | attrError
  deriving DecidableEq, Repr

/-- Observable side effects of one `Param.__set__` call: whether the
`obj.debug(...)` change message ran, whether the `obj.__dict__[...] = value`
assignment ran, whether a widget value was pushed, and any warnings emitted
(`Param.__set__` contains no warning call sites, so this list stays empty). -/
structure Effects where
  debugged : Bool := false
  wroteStore : Bool := false
  widgetSet : Bool := false
  warnings : List String := []
  deriving DecidableEq, Repr

/-- Descriptor slot names subject to inheritance (the `owner` slot is kept as
a separate field of `Param`, because `__param_inheritance` deletes it from the
slot set before the fill loop).  `stop` models the Python slot named `end`. -/
inductive Slot where
  | nm | attrnm | dflt | units | doc | constant | start | stop | step | widget | dtype
  deriving DecidableEq, Repr

/-- The descriptor variant classes of src/specify/types.py. -/
inductive PType where
  | base | valueType | widgetP | range | slider | logParam | logSlider | checkbox
  deriving DecidableEq, Repr

/-- Current owner of a descriptor object (the `owner` slot). -/
inductive POwner where
  | unset
  | byClass (cid : Nat)
  | byInst
  deriving DecidableEq, Repr

/-- A descriptor object (`Param` and subclasses).  Field defaults mirror the
`__init__` chain with no arguments: every slot starts at `None` except
`constant`, which starts at `False`.  The field `dflt` models the slot named
`default`, `nm` the slot `name`, `attrnm` the slot `attrname`, `stop` the
slot `end`. -/
structure Param where
  ptype : PType := PType.base
  nm : Value := Value.none
  attrnm : Value := Value.none
  dflt : Value := Value.none
  units : Value := Value.none
  doc : Value := Value.none
  constant : Value := Value.bool false
  start : Value := Value.none
  stop : Value := Value.none
  step : Value := Value.none
  widget : Value := Value.none
  dtype : Value := Value.none
  owner : POwner := POwner.unset
  deriving DecidableEq, Repr

def getSlot (p : Param) : Slot → Value
  | Slot.nm => p.nm
  | Slot.attrnm => p.attrnm
  | Slot.dflt => p.dflt
  | Slot.units => p.units
  | Slot.doc => p.doc
  | Slot.constant => p.constant
  | Slot.start => p.start
  | Slot.stop => p.stop
  | Slot.step => p.step
  | Slot.widget => p.widget
  | Slot.dtype => p.dtype

def setSlot (p : Param) : Slot → Value → Param
  | Slot.nm, v => { p with nm := v }
  | Slot.attrnm, v => { p with attrnm := v }
  | Slot.dflt, v => { p with dflt := v }
  | Slot.units, v => { p with units := v }
  | Slot.doc, v => { p with doc := v }
  | Slot.constant, v => { p with constant := v }
  | Slot.start, v => { p with start := v }
  | Slot.stop, v => { p with stop := v }
  | Slot.step, v => { p with step := v }
  | Slot.widget, v => { p with widget := v }
  | Slot.dtype, v => { p with dtype := v }

/-- Slots of the base `Param` class in `__slots__` order, minus `owner`
(which `__param_inheritance` removes before the fill loop). -/
def baseSlots : List Slot :=
  [Slot.nm, Slot.dflt, Slot.units, Slot.doc, Slot.constant, Slot.attrnm]

/-- `get_all_slots` for each variant class (union of `__slots__` over the
class hierarchy), minus `owner`; mirrors utils.get_all_slots plus the
`del slots['owner']` of `__param_inheritance`. -/
def ptypeSlots : PType → List Slot
  | PType.base => baseSlots
  | PType.valueType => baseSlots ++ [Slot.dtype]
  | PType.widgetP => baseSlots ++ [Slot.widget]
  | PType.range => baseSlots ++ [Slot.start, Slot.stop]
  | PType.slider => baseSlots ++ [Slot.start, Slot.stop, Slot.step, Slot.widget]
  | PType.logParam => baseSlots
  | PType.logSlider => baseSlots ++ [Slot.start, Slot.stop, Slot.step, Slot.widget]
  | PType.checkbox => baseSlots ++ [Slot.widget]

/-- `hasattr(param, slot)`: all slots of a variant are initialized by its
`__init__`, so a slot is present exactly when the variant defines it. -/
def hasSlot (p : Param) (s : Slot) : Bool :=
  (ptypeSlots p.ptype).contains s

/-- `Param(default=..., units=..., doc=..., constant=...)`. -/
def mkParam (dflt : Value := Value.none) (units : Value := Value.none)
    (doc : Value := Value.none) (constant : Value := Value.bool false) : Param :=
  { ptype := PType.base, dflt := dflt, units := units, doc := doc, constant := constant }

/-- `Range(default=..., start=..., end=..., **kwargs)`. -/
def mkRange (dflt : Value := Value.none) (start : Value := Value.none)
    (stop : Value := Value.none) (units : Value := Value.none)
    (doc : Value := Value.none) (constant : Value := Value.bool false) : Param :=
  { mkParam dflt units doc constant with ptype := PType.range, start := start, stop := stop }

/-- `type(value)(default=copy.deepcopy(clsvalue))`: construct a descriptor of
the given variant from a default alone, mirroring each `__init__` chain
(slider variants hard-code their `widget` slot). -/
def mkOfPType : PType → Value → Param
  | PType.base, v => mkParam v
  | PType.valueType, v => { mkParam v with ptype := PType.valueType }
  | PType.widgetP, v => { mkParam v with ptype := PType.widgetP }
  | PType.range, v => { mkParam v with ptype := PType.range }
  | PType.slider, v => { mkParam v with ptype := PType.slider, widget := Value.str "slider" }
  | PType.logParam, v => { mkParam v with ptype := PType.logParam }
  | PType.logSlider, v =>
      { mkParam v with ptype := PType.logSlider, widget := Value.str "logslider" }
  | PType.checkbox, v =>
      { mkParam v with ptype := PType.checkbox, widget := Value.str "checkbox" }

/-- Association-list lookup (Python `dict.get`). -/
def aget {α β : Type} [DecidableEq α] : List (α × β) → α → Option β
  | [], _ => Option.none
  | (k, v) :: rest, key => if k = key then some v else aget rest key

/-- Association-list store (`d[k] = v`): updates an existing key in place
(preserving its position, as Python dicts do) or appends a new key. -/
def aset {α β : Type} [DecidableEq α] : List (α × β) → α → β → List (α × β)
  | [], key, val => [(key, val)]
  | (k, v) :: rest, key, val =>
      if k = key then (k, val) :: rest else (k, v) :: aset rest key val

/-- `Param._attrname`: name mangling for the instance storage key. -/
def attrnameOf (n : String) : String := "_" ++ n ++ "_specified_value"

/-- `Param._set_names`: raises `AttributeError` when renaming a descriptor
already named and owned; otherwise sets the `name` and `attrname` slots. -/
def setNames (p : Param) (n : String) : Except PyErr Param :=
  if p.nm ≠ Value.none ∧ p.owner ≠ POwner.unset ∧ Value.str n ≠ p.nm then
    Except.error PyErr.attrError
  else
    Except.ok { p with nm := Value.str n, attrnm := Value.str (attrnameOf n) }

/-- A class `__dict__` entry: a descriptor reference or a plain value. -/
inductive DictEntry where
  | par (pid : Nat)
  | plain (v : Value)
  deriving DecidableEq, Repr

/-- A class created by `SpecifiedMetaclass`.  `mro` lists class ids
nearest-first (the class itself at the head), i.e. `inspect.getmro` order;
`utils.classlist` is `mro.reverse`.  `spec` is the class registry built by
the metaclass. -/
structure PyClass where
  cname : String
  mro : List Nat
  dict : List (String × DictEntry)
  spec : List (String × Nat)
  deriving DecidableEq, Repr

/-- Global state: the heap of descriptor objects plus the class table. -/
structure PyState where
  heap : List (Nat × Param) := []
  nextId : Nat := 0
  classes : List (Nat × PyClass) := []
  nextCid : Nat := 0
  deriving DecidableEq, Repr

def alloc (st : PyState) (p : Param) : PyState × Nat :=
  ({ st with heap := st.heap ++ [(st.nextId, p)], nextId := st.nextId + 1 }, st.nextId)

def getParam (st : PyState) (pid : Nat) : Option Param := aget st.heap pid

def setParam (st : PyState) (pid : Nat) (p : Param) : PyState :=
  { st with heap := aset st.heap pid p }

def getCls (st : PyState) (cid : Nat) : Option PyClass := aget st.classes cid

def updCls (st : PyState) (cid : Nat) (f : PyClass → PyClass) : PyState :=
  match aget st.classes cid with
  | some c => { st with classes := aset st.classes cid (f c) }
  | Option.none => st

/-- `superclass.__dict__.get(pname)` restricted to descriptor entries: a
plain entry has none of the descriptor slots, so the `hasattr(ancestor,
slot)` guard of `__param_inheritance` rejects it just like a missing key. -/
def dictGetParam (st : PyState) (cid : Nat) (pname : String) : Option Param :=
  match getCls st cid with
  | Option.none => Option.none
  | some c =>
    match aget c.dict pname with
    | some (DictEntry.par pid) => getParam st pid
    | _ => Option.none

/-- The `while getattr(param, slot) is None` fill loop of
`__param_inheritance`, walking `classlist(cls)[::-1]` (the mro,
nearest-first, class itself included). -/
def resolveSlot (own : Value) (ancs : List (Option Param)) (s : Slot) : Value :=
  match ancs with
  | [] => own
  | a :: rest =>
      if own = Value.none then
        let own' := match a with
          | some q => if hasSlot q s then getSlot q s else own
          | Option.none => own
        resolveSlot own' rest s
      else own

/-- `SpecifiedMetaclass.__param_inheritance(pname, param)`: set the `owner`
slot to the class, then fill every still-`None` slot of the param's variant
from the nearest ancestor (in mro order) owning a same-named descriptor that
defines the slot. -/
def inheritParam (st : PyState) (cid : Nat) (pname : String) (p : Param) : Param :=
  let p := { p with owner := POwner.byClass cid }
  let mroClasses := ((getCls st cid).map (·.mro)).getD []
  let ancs := mroClasses.map (fun c => dictGetParam st c pname)
  (ptypeSlots p.ptype).foldl (fun q s => setSlot q s (resolveSlot (getSlot q s) ancs s)) p

/-- A class-body entry as written in source: a plain value or a descriptor. -/
inductive BodyEntry where
  | plainB (v : Value)
  | paramB (p : Param)
  deriving DecidableEq, Repr

/-- `SpecifiedMetaclass.__new__` + `__init__` for a single-base class
definition `class C(base): body`.

`__new__`: walk `classlist(base)[::-1]` (the base's mro, most-derived
first); for each descriptor entry `key` of each superclass: if the body
re-declares `key` as a plain value, replace it with a fresh descriptor of
the ancestor's variant whose default is that plain value (registered in
`spec`); if the body re-declares it as a descriptor, leave it; otherwise
share the ancestor's descriptor by reference in `spec` (no copy).

`__init__`: for every descriptor entry of the final class dict, run
`_set_names`, `__param_inheritance` and record it in `spec`. -/
def newClass (st : PyState) (cname : String) (baseCid : Nat)
    (body : List (String × BodyEntry)) : Except PyErr (PyState × Nat) := do
  -- the class body constructs its own descriptor objects
  let stDict := body.foldl
    (fun acc kv =>
      match kv.2 with
      | BodyEntry.plainB v => (acc.1, acc.2 ++ [(kv.1, DictEntry.plain v)])
      | BodyEntry.paramB p =>
          let (st', pid) := alloc acc.1 p
          (st', acc.2 ++ [(kv.1, DictEntry.par pid)]))
    (st, ([] : List (String × DictEntry)))
  let st := stDict.1
  let clsdict := stDict.2
  let baseMro := ((getCls st baseCid).map (·.mro)).getD []
  -- SpecifiedMetaclass.__new__ inheritance loop
  let r := baseMro.foldl
    (fun acc scid =>
      match getCls acc.1 scid with
      | Option.none => acc
      | some sc => sc.dict.foldl
          (fun acc2 kv =>
            let (st, cd, sp) := acc2
            match kv with
            | (key, DictEntry.par pid) =>
              if key = "name" then (st, cd, sp)
              else
                match aget cd key with
                | some (DictEntry.par _) => (st, cd, sp)
                | some (DictEntry.plain v) =>
                    match getParam st pid with
                    | some anc =>
                        let (st', nid) := alloc st (mkOfPType anc.ptype v)
                        (st', aset cd key (DictEntry.par nid), aset sp key nid)
                    | Option.none => (st, cd, sp)
                | Option.none => (st, cd, aset sp key pid)
            | _ => acc2)
          acc)
    (st, clsdict, ([] : List (String × Nat)))
  let st := r.1
  let clsdict := r.2.1
  let specs := r.2.2
  -- type.__new__: register the class object
  let cid := st.nextCid
  let cls : PyClass := { cname := cname, mro := cid :: baseMro, dict := clsdict, spec := specs }
  let st := { st with classes := st.classes ++ [(cid, cls)], nextCid := cid + 1 }
  -- SpecifiedMetaclass.__init__: initialize the body's descriptors
  let st ← clsdict.foldlM
    (fun st kv =>
      match kv with
      | (pname, DictEntry.par pid) =>
        if pname = "name" then pure st
        else
          match getParam st pid with
          | Option.none => pure st
          | some p => do
              let p ← setNames p pname
              let st := setParam st pid p
              let p := inheritParam st cid pname p
              let st := setParam st pid p
              pure (updCls st cid fun c => { c with spec := aset c.spec pname pid })
      | _ => pure st)
    st
  pure (st, cid)

/-- Run a class construction that is known to succeed. -/
def built (d : PyState × Nat) (e : Except PyErr (PyState × Nat)) : PyState × Nat :=
  match e with
  | Except.ok r => r
  | Except.error _ => d

/-- Helper for `get_param_descriptor`: first descriptor entry for `pname`
along the given mro (plain entries are skipped, the walk continues). -/
def findParamInMro (st : PyState) : List Nat → String → Option (Nat × Nat)
  | [], _ => Option.none
  | scid :: rest, pname =>
      match (getCls st scid).bind (fun c => aget c.dict pname) with
      | some (DictEntry.par pid) => some (pid, scid)
      | _ => findParamInMro st rest pname

/-- `SpecifiedMetaclass.get_param_descriptor`: walk `classlist(cls)[::-1]`
(nearest-first) for a descriptor class attribute `pname`; return it with the
class in whose `__dict__` it was found. -/
def getParamDescriptor (st : PyState) (cid : Nat) (pname : String) : Option (Nat × Nat) :=
  match getCls st cid with
  | some c => findParamInMro st c.mro pname
  | Option.none => Option.none

/-- Ordinary Python attribute lookup along the mro: first `__dict__` entry
of any kind (unlike `get_param_descriptor`, a plain entry stops the walk). -/
def typeLookupMro (st : PyState) : List Nat → String → Option DictEntry
  | [], _ => Option.none
  | scid :: rest, pname =>
      match (getCls st scid).bind (fun c => aget c.dict pname) with
      | some e => some e
      | Option.none => typeLookupMro st rest pname

def clsAttr (st : PyState) (cid : Nat) (pname : String) : Option DictEntry :=
  (getCls st cid).bind fun c => typeLookupMro st c.mro pname

/-- `Param.__set__` with `obj is None` (class-level write): both the
constant and the non-constant branch assign `self.default = value`; the
widget block is skipped because `hasattr(None, '_widgets')` is false. -/
def paramSetClass (p : Param) (v : Value) : Param := { p with dflt := v }

/-- `SpecifiedMetaclass.__setattr__(cls, name, value)`.  If `name` resolves
to a descriptor and `value` is not one: copy-on-override — when the
descriptor was found in an ancestor's `__dict__` (not `cls`'s), shallow-copy
it (`copy.copy` copies every slot, `owner` included), reassign `owner`,
install the copy in `cls.__dict__` and `cls.spec`; then write `value` as the
default through `cls.__dict__[name].__set__(None, value)`.  Otherwise fall
back to `type.__setattr__`, re-running inheritance when `value` is a
descriptor. -/
def setattrCls (st : PyState) (cid : Nat) (name : String) (value : BodyEntry) : PyState :=
  match getParamDescriptor st cid name, value with
  | some (pid, ownerCid), BodyEntry.plainB v =>
      let stTarget :=
        if ownerCid ≠ cid then
          match getParam st pid with
          | some p =>
              let (st', nid) := alloc st { p with owner := POwner.byClass cid }
              let st' := updCls st' cid fun c =>
                { c with dict := aset c.dict name (DictEntry.par nid),
                         spec := aset c.spec name nid }
              (st', nid)
          | Option.none => (st, pid)
        else (st, pid)
      let st := stTarget.1
      let target := stTarget.2
      match getParam st target with
      | some p => setParam st target (paramSetClass p v)
      | Option.none => st
  | _, BodyEntry.paramB p =>
      let (st, nid) := alloc st p
      let st := updCls st cid fun c => { c with dict := aset c.dict name (DictEntry.par nid) }
      match getParam st nid with
      | some q =>
          let q := inheritParam st cid name q
          let st := setParam st nid q
          updCls st cid fun c => { c with spec := aset c.spec name nid }
      | Option.none => st
  | Option.none, BodyEntry.plainB v =>
      updCls st cid fun c => { c with dict := aset c.dict name (DictEntry.plain v) }

/-- A `Specified` instance: its class, the `_initialized` flag, the value
store (the part of `obj.__dict__` holding parameter values, keyed by each
descriptor's `attrname`; raw attribute names are stored under
`Value.str name`), the instance-local registry `spec_local`, and the
`_widgets` table (widget name to current widget value). -/
structure PyInst where
  cid : Nat
  initialized : Bool := false
  store : List (Value × Value) := []
  specLocal : List (String × Nat) := []
  widgets : List (Value × Value) := []
  deriving DecidableEq, Repr

/-- Result of one `Param.__set__` call on an instance.  When `err` is set
the call raised, and `inst` is the untouched input instance (the source
raises before performing any mutation on those paths). -/
structure SetOut where
  inst : PyInst
  eff : Effects := {}
  err : Option PyErr := Option.none
  deriving DecidableEq, Repr

/-- The trailing widget block of `Param.__set__`: when `self.name` is a key
of `obj._widgets` and the widget value differs, push the new value. -/
def widgetStep (p : Param) (inst : PyInst) (v : Value) (eff : Effects) : PyInst × Effects :=
  match aget inst.widgets p.nm with
  | some wv =>
      if wv ≠ v then
        ({ inst with widgets := aset inst.widgets p.nm v }, { eff with widgetSet := true })
      else (inst, eff)
  | Option.none => (inst, eff)

/-- The shared write path of `Param.__set__` (both the pre-initialization
constant branch and the non-constant branch): read `oldval` from
`obj.__dict__[self.attrname]` (KeyError if absent), call `obj.debug` only if
the value changed, then unconditionally perform the storage assignment, then
run the widget block. -/
def storeWrite (p : Param) (inst : PyInst) (v : Value) : SetOut :=
  match aget inst.store p.attrnm with
  | Option.none => { inst := inst, err := some PyErr.keyError }
  | some oldval =>
      let eff : Effects := { debugged := oldval ≠ v, wroteStore := true }
      let inst := { inst with store := aset inst.store p.attrnm v }
      let r := widgetStep p inst v eff
      { inst := r.1, eff := r.2 }

/-- `Param.__set__(obj, value)` with `obj` an instance: a constant parameter
may be written while `obj._initialized` is false, and raises
`TypeError('Constant parameter ... cannot be modified')` afterwards; a
non-constant parameter always takes the write path. -/
def paramSetInst (p : Param) (inst : PyInst) (v : Value) : SetOut :=
  if truthy p.constant then
    if inst.initialized then
      { inst := inst, err := some PyErr.typeErrorConstant }
    else storeWrite p inst v
  else storeWrite p inst v

/-- `Param.__get__(obj, ...)`: class-level access returns the default
(raising when it is still `None`); instance access returns the stored value,
falling back to the default. -/
def paramGet (p : Param) (obj : Option PyInst) : Except PyErr Value :=
  match obj with
  | Option.none =>
      if p.dflt = Value.none then Except.error PyErr.typeErrorNoDefault
      else Except.ok p.dflt
  | some inst => Except.ok ((aget inst.store p.attrnm).getD p.dflt)

/-- `setattr(instance, name, value)`: Python finds the class attribute along
the mro; a descriptor (data descriptor, it defines `__set__`) intercepts the
write, anything else results in a plain `instance.__dict__` write. -/
def instSetAttr (st : PyState) (inst : PyInst) (name : String) (v : Value) : SetOut :=
  match clsAttr st inst.cid name with
  | some (DictEntry.par pid) =>
      match getParam st pid with
      | some p => paramSetInst p inst v
      | Option.none => { inst := inst, err := some PyErr.attrError }
  | _ => { inst := { inst with store := aset inst.store (Value.str name) v } }

/-- `getattr(instance, name)`: a class descriptor wins (data descriptor); a
plain class attribute is shadowed by the instance `__dict__`; otherwise the
instance `__dict__` alone, else `AttributeError`. -/
def instGetAttr (st : PyState) (inst : PyInst) (name : String) : Except PyErr Value :=
  match clsAttr st inst.cid name with
  | some (DictEntry.par pid) =>
      match getParam st pid with
      | some p => paramGet p (some inst)
      | Option.none => Except.error PyErr.attrError
  | some (DictEntry.plain v) => Except.ok ((aget inst.store (Value.str name)).getD v)
  | Option.none =>
      match aget inst.store (Value.str name) with
      | some v => Except.ok v
      | Option.none => Except.error PyErr.attrError

/-- The `to_instantiate` dict of `Specified.__init__`: walk
`classlist(type(self))` root-first, collecting every descriptor entry (name
other than `'name'`); a nearer class's entry overwrites a farther one's. -/
def toInstantiate (st : PyState) (cid : Nat) : List (String × Nat) :=
  match getCls st cid with
  | Option.none => []
  | some c => c.mro.reverse.foldl
      (fun acc scid =>
        match getCls st scid with
        | Option.none => acc
        | some sc => sc.dict.foldl
            (fun acc2 kv =>
              match kv with
              | (k, DictEntry.par pid) => if k = "name" then acc2 else aset acc2 k pid
              | _ => acc2)
            acc)
      ([] : List (String × Nat))

/-- Keys of the class registry `cls.spec`. -/
def specKeys (st : PyState) (cid : Nat) : List String :=
  ((getCls st cid).map (fun c => c.spec.map (·.1))).getD []

def cnameOf (st : PyState) (cid : Nat) : String :=
  ((getCls st cid).map (·.cname)).getD ""

/-- The `spec_produce` constructor option (`False`, `True`, or a tuple). -/
inductive ProduceOpt where
  | noneP
  | allP
  | listP (ks : List String)
  deriving DecidableEq, Repr

/-- Result of `Specified.__init__`: the instance, the `to_consume` list, and
the final `kwargs` dict handed to `super().__init__`.  When `err` is set the
constructor raised at that point. -/
structure InitOut where
  inst : PyInst
  consumed : List String := []
  kwargs : List (String × Value) := []
  err : Option PyErr := Option.none
  deriving DecidableEq, Repr

/-- `Specified.__init__(self, *, spec_produce=False, spec_consume=True,
**kwargs)`: materialize every reachable descriptor's (deep-copied) default
into the store; then for each keyword — skip a mismatched `_spec_class`
tag, skip keys not in `cls.spec` and keys whose value is `None`, write the
rest through `setattr` recording them in `to_consume`; then consume and/or
produce keywords; finally flip `_initialized` to true. -/
def instInit (st : PyState) (cid : Nat) (kwargs : List (String × Value))
    (specConsume : Bool := true) (specProduce : ProduceOpt := ProduceOpt.noneP) : InitOut :=
  let inst : PyInst := { cid := cid }
  let inst := (toInstantiate st cid).foldl
    (fun i kv =>
      match getParam st kv.2 with
      | some p => { i with store := aset i.store p.attrnm p.dflt }
      | Option.none => i)
    inst
  let cname := cnameOf st cid
  let r := kwargs.foldl
    (fun acc kv =>
      match acc.2.2 with
      | some _ => acc
      | Option.none =>
        let key := kv.1
        let value := kv.2
        if key = "_spec_class" ∧ value ≠ Value.str cname then acc
        else if ¬ (specKeys st cid).contains key ∨ value = Value.none then acc
        else
          let s := instSetAttr st acc.1 key value
          match s.err with
          | some e => (s.inst, acc.2.1, some e)
          | Option.none => (s.inst, acc.2.1 ++ [key], Option.none))
    (inst, ([] : List String), (Option.none : Option PyErr))
  match r.2.2 with
  | some e => { inst := r.1, consumed := r.2.1, kwargs := kwargs, err := some e }
  | Option.none =>
    let consumed := r.2.1
    let inst := r.1
    let kwargs := if specConsume then kwargs.filter (fun kv => !(consumed.contains kv.1))
                  else kwargs
    let produceKeys := match specProduce with
      | ProduceOpt.noneP => []
      | ProduceOpt.allP => specKeys st cid
      | ProduceOpt.listP ks => ks
    let produced := produceKeys.foldl
      (fun acc key =>
        match acc.2 with
        | some _ => acc
        | Option.none =>
          if (aget acc.1 key).isSome then acc
          else
            match instGetAttr st inst key with
            | Except.ok v => (acc.1 ++ [(key, v)], Option.none)
            | Except.error e => (acc.1, some e))
      (kwargs, (Option.none : Option PyErr))
    match produced.2 with
    | some e => { inst := inst, consumed := consumed, kwargs := produced.1, err := some e }
    | Option.none =>
        { inst := { inst with initialized := true }, consumed := consumed,
          kwargs := produced.1 }

/-- `Specified.__iter__` name order: the class registry `spec`, then the
instance-local registry `spec_local`. -/
def instNames (st : PyState) (inst : PyInst) : List String :=
  specKeys st inst.cid ++ inst.specLocal.map (·.1)

/-- `Specified.items()`: `(name, getattr(self, name))` for every parameter. -/
def instItems (st : PyState) (inst : PyInst) : Except PyErr (List (String × Value)) :=
  (instNames st inst).mapM fun n => (instGetAttr st inst n).map fun v => (n, v)

/-- `Specified.to_dict()`: the items plus the reserved `_spec_class` tag.
Values in this model are scalars, so the nested-mapping recursion of the
source (guarded by `hasattr(value, 'items')`) never fires. -/
def toDict (st : PyState) (inst : PyInst) : Except PyErr (List (String × Value)) := do
  let its ← instItems st inst
  pure (its ++ [("_spec_class", Value.str (cnameOf st inst.cid))])

/-- Result of `Specified.add_param`. -/
structure AddOut where
  st : PyState
  inst : PyInst
  warned : Bool := false
  err : Option PyErr := Option.none
  deriving DecidableEq, Repr

/-- `Specified.add_param(self, pname, param, *, value=None)`: warn (only)
when `pname` is already a class attribute; raise `ValueError` when `pname`
is a key of the raw instance `__dict__`; otherwise bind names, set
`owner = self`, deep-copy the default, record the descriptor in
`spec_local`, install it into the class `__dict__` via `type.__setattr__`,
and seed the instance storage from `value` or the default. -/
def addParam (st : PyState) (inst : PyInst) (pname : String) (p : Param)
    (value : Value := Value.none) : AddOut :=
  match getCls st inst.cid with
  | Option.none => { st := st, inst := inst, err := some PyErr.attrError }
  | some c =>
    let warned := (aget c.dict pname).isSome
    if (aget inst.store (Value.str pname)).isSome then
      { st := st, inst := inst, warned := warned, err := some PyErr.valueErrorConflict }
    else
      match setNames p pname with
      | Except.error e => { st := st, inst := inst, warned := warned, err := some e }
      | Except.ok p =>
        let p := { p with owner := POwner.byInst }
        let (st, pid) := alloc st p
        let inst := { inst with specLocal := aset inst.specLocal pname pid }
        let st := updCls st inst.cid fun c =>
          { c with dict := aset c.dict pname (DictEntry.par pid) }
        let inst :=
          if value ≠ Value.none then
            { inst with store := aset inst.store p.attrnm value }
          else if (aget inst.store p.attrnm).isSome then inst
          else { inst with store := aset inst.store p.attrnm p.dflt }
        { st := st, inst := inst, warned := warned }

/-- `__slots__` names, in declaration order, accumulated over each variant's
class hierarchy: `utils.get_all_slots` as used by `Param.copy`. -/
def getAllSlotNames : PType → List String
  | PType.base =>
      ["name", "default", "units", "doc", "constant", "owner", "attrname"]
  | PType.valueType =>
      ["name", "default", "units", "doc", "constant", "owner", "attrname", "dtype"]
  | PType.widgetP =>
      ["name", "default", "units", "doc", "constant", "owner", "attrname", "widget"]
  | PType.range =>
      ["name", "default", "units", "doc", "constant", "owner", "attrname", "start", "end"]
  | PType.slider =>
      ["name", "default", "units", "doc", "constant", "owner", "attrname",
       "start", "end", "step", "widget"]
  | PType.logParam =>
      ["name", "default", "units", "doc", "constant", "owner", "attrname"]
  | PType.logSlider =>
      ["name", "default", "units", "doc", "constant", "owner", "attrname",
       "start", "end", "step", "widget"]
  | PType.checkbox =>
      ["name", "default", "units", "doc", "constant", "owner", "attrname", "widget"]

/-- Keyword names accepted by each variant's `__init__` chain (extra
keywords raise `TypeError`).  `Slider`, `LogSlider` and `Checkbox` set
`widget`/`step` internally; none of the chains accepts `name` or
`attrname`. -/
def initKeywords : PType → List String
  | PType.base => ["default", "units", "doc", "constant"]
  | PType.valueType => ["default", "dtype", "units", "doc", "constant"]
  | PType.widgetP => ["default", "widget", "units", "doc", "constant"]
  | PType.range => ["default", "start", "end", "units", "doc", "constant"]
  | PType.slider => ["default", "step", "start", "end", "units", "doc", "constant"]
  | PType.logParam => ["default", "units", "doc", "constant"]
  | PType.logSlider => ["default", "step", "start", "end", "units", "doc", "constant"]
  | PType.checkbox => ["default", "widget", "units", "doc", "constant"]

/-- `Param.copy(self)`: builds the call
`type(self)(**{slot: copy.copy(getattr(self, slot)) for slot in
get_all_slots(type(self)) if slot != 'owner'})`.  The call raises
`TypeError` as soon as some keyword (in particular `name` and `attrname`,
which every variant's slot list contains) is not accepted by the variant's
`__init__` chain; otherwise the new descriptor would be built from those
keywords and then given `newparam.owner = self.owner`. -/
def paramCopy (p : Param) : Except PyErr Param :=
  let kwargKeys := (getAllSlotNames p.ptype).filter (fun s => s ≠ "owner")
  if kwargKeys.all (fun s => (initKeywords p.ptype).contains s) then
    Except.ok { p with owner := p.owner }
  else Except.error PyErr.typeErrorKwarg

/-- A sequence of writes through one descriptor: stop at the first raise.
The boolean records whether every write succeeded. -/
def writeSeq (p : Param) (inst : PyInst) : List Value → PyInst × Bool
  | [] => (inst, true)
  | v :: rest =>
      if (paramSetInst p inst v).err = Option.none
      then writeSeq p (paramSetInst p inst v).inst rest
      else ((paramSetInst p inst v).inst, false)

/-- The round trip of claim C9: export `x` with `to_dict`, strip the
reserved `_spec_class` key, construct a fresh instance of the same class
from the result, and take its `items()`. -/
def roundTripItems (st : PyState) (cid : Nat) (x : PyInst) :
    Except PyErr (List (String × Value)) := do
  let d ← toDict st x
  let r := instInit st cid (d.filter (fun kv => kv.1 != "_spec_class"))
  match r.err with
  | some e => Except.error e
  | Option.none => instItems st r.inst

/-- Descriptor id found directly in a class's own `__dict__`. -/
def pidAt (st : PyState) (cid : Nat) (n : String) : Option Nat :=
  (getCls st cid).bind fun c =>
    match aget c.dict n with
    | some (DictEntry.par pid) => some pid
    | _ => Option.none

/-- Descriptor id recorded in a class's `spec` registry. -/
def specPid (st : PyState) (cid : Nat) (n : String) : Option Nat :=
  (getCls st cid).bind fun c => aget c.spec n

/-! ### Concrete scenario states -/

/-- The root `Specified` class (no declared parameters). -/
def st0 : PyState :=
  { classes := [(0, { cname := "Specified", mro := [0], dict := [], spec := [] })],
    nextCid := 1 }

/-- C2 witness: the grandparent `A`'s descriptor for `p`
(`Param(default=1, units='mm')`, names bound, owned by `A`). -/
def pAw : Param :=
  { mkParam (Value.int 1) (Value.str "mm") with
    nm := Value.str "p", attrnm := Value.str (attrnameOf "p"), owner := POwner.byClass 1 }

/-- C2 witness: the parent `B`'s descriptor for `p`
(`Param(default=2, units='cm')`, names bound, owned by `B`). -/
def pBw : Param :=
  { mkParam (Value.int 2) (Value.str "cm") with
    nm := Value.str "p", attrnm := Value.str (attrnameOf "p"), owner := POwner.byClass 2 }

/-- C2 witness: `C`'s own freshly declared descriptor for `p` as it stands
when `__param_inheritance` runs — names bound, all metadata slots unset. -/
def pC0w : Param :=
  { mkParam with nm := Value.str "p", attrnm := Value.str (attrnameOf "p") }

/-- C2 witness state: the chain `Specified <- A <- B <- C` at the moment
`C`'s descriptor is about to be resolved (mirroring the state produced by
`SpecifiedMetaclass.__new__` right before `__param_inheritance`). -/
def wSt : PyState :=
  { heap := [(0, pAw), (1, pBw), (2, pC0w)], nextId := 3,
    classes :=
      [(0, { cname := "Specified", mro := [0], dict := [], spec := [] }),
       (1, { cname := "A", mro := [1, 0], dict := [("p", DictEntry.par 0)], spec := [("p", 0)] }),
       (2, { cname := "B", mro := [2, 1, 0], dict := [("p", DictEntry.par 1)], spec := [("p", 1)] }),
       (3, { cname := "C", mro := [3, 2, 1, 0], dict := [("p", DictEntry.par 2)], spec := [] })],
    nextCid := 4 }

/-- C3/C6 base class: `B` declares `p = Param(default=1, units='u')`. -/
def stB : PyState × Nat :=
  built (st0, 0)
    (newClass st0 "B" 0 [("p", BodyEntry.paramB (mkParam (Value.int 1) (Value.str "u")))])

/-- C3 sibling: `C1(B)` overrides `p` with the plain value `2`. -/
def stC1 : PyState × Nat :=
  built stB (newClass stB.1 "C1" stB.2 [("p", BodyEntry.plainB (Value.int 2))])

/-- C3 sibling: `C2(B)` overrides `p` with the plain value `3`. -/
def stC2 : PyState × Nat :=
  built stC1 (newClass stC1.1 "C2" stB.2 [("p", BodyEntry.plainB (Value.int 3))])

/-- C6 subclass: `D(B)` declares nothing, so it shares `B`'s descriptor. -/
def stD : PyState × Nat := built stB (newClass stB.1 "D" stB.2 [])

/-- C9/C10 class: `M` declares `alpha = Param(default=1)` and
`beta = Param(default=2)`. -/
def stM : PyState × Nat :=
  built (st0, 0) (newClass st0 "M" 0
    [("alpha", BodyEntry.paramB (mkParam (Value.int 1))),
     ("beta", BodyEntry.paramB (mkParam (Value.int 2)))])

/-- A fresh `M()` instance. -/
def xM0 : PyInst := (instInit stM.1 stM.2 []).inst

/-- An `M()` instance whose `alpha` and `beta` were overwritten post-init. -/
def xM (v1 v2 : Value) : PyInst :=
  (instSetAttr stM.1 (instSetAttr stM.1 xM0 "alpha" v1).inst "beta" v2).inst

/-- C9 counterexample instance: `alpha` set to `None` after construction. -/
def x3 : PyInst := (instSetAttr stM.1 xM0 "alpha" Value.none).inst

/-- C8 class: `E` declares no parameters. -/
def stE : PyState × Nat := built (st0, 0) (newClass st0 "E" 0 [])

/-- A fresh `E()` instance. -/
def e0 : PyInst := (instInit stE.1 stE.2 []).inst

/-- C8: first `add_param('p', Param(default=a))` on the `E()` instance. -/
def addFst (a : Value) : AddOut := addParam stE.1 e0 "p" (mkParam a)

/-- C8: second `add_param('p', Param(default=b))` on the same instance,
colliding with the first declaration (a different descriptor object). -/
def addSnd (a b : Value) : AddOut :=
  addParam (addFst a).st (addFst a).inst "p" (mkParam b)

/-- C1 witness descriptor: a constant parameter named `p`. -/
def cP : Param :=
  { mkParam (Value.int 1) with
    constant := Value.bool true,
    nm := Value.str "p", attrnm := Value.str (attrnameOf "p") }

/-- C1 witness instance before initialization completes. -/
def iPre : PyInst :=
  { cid := 0, initialized := false,
    store := [(Value.str (attrnameOf "p"), Value.int 1)] }

/-- C1 witness instance after initialization. -/
def iPost : PyInst := { iPre with initialized := true }

/-- C4 descriptor: a non-constant parameter named `q` with default 5. -/
def nP : Param :=
  { mkParam (Value.int 5) with
    nm := Value.str "q", attrnm := Value.str (attrnameOf "q") }

/-- C4 instance: initialized, current value of `q` is 5. -/
def iQ : PyInst :=
  { cid := 0, initialized := true,
    store := [(Value.str (attrnameOf "q"), Value.int 5)] }

/-- C7 descriptor: `Range(default=5, start=0, end=10)` named `r`. -/
def rP : Param :=
  { mkRange (Value.int 5) (Value.int 0) (Value.int 10) with
    nm := Value.str "r", attrnm := Value.str (attrnameOf "r") }

/-- C7 instance: initialized, current value of `r` is 5 (in bounds). -/
def iR : PyInst :=
  { cid := 0, initialized := true,
    store := [(Value.str (attrnameOf "r"), Value.int 5)] }

/-- C10 class: `P` declares `p = Param(default=d)` for an arbitrary `d`. -/
def stP (d : Value) : PyState × Nat :=
  built (st0, 0) (newClass st0 "P" 0 [("p", BodyEntry.paramB (mkParam d))])

/-! ### Association-list lemmas -/

theorem aget_aset_self {α β : Type} [DecidableEq α] (l : List (α × β)) (k : α) (v : β) :
    aget (aset l k v) k = some v := by
  induction l with
  | nil => simp [aset, aget]
  | cons kv rest ih =>
    obtain ⟨k1, v1⟩ := kv
    simp only [aset]
    by_cases hk : k1 = k
    · rw [if_pos hk]; simp [aget, hk]
    · rw [if_neg hk]; simp only [aget, if_neg hk]; exact ih

theorem aset_self {α β : Type} [DecidableEq α] (l : List (α × β)) (k : α) (v : β)
    (h : aget l k = some v) : aset l k v = l := by
  induction l with
  | nil => simp [aget] at h
  | cons kv rest ih =>
    obtain ⟨k1, v1⟩ := kv
    simp only [aget] at h
    simp only [aset]
    by_cases hk : k1 = k
    · rw [if_pos hk] at h ⊢
      cases h
      rfl
    · rw [if_neg hk] at h ⊢
      rw [ih h]

/-! ### Slot and resolver lemmas -/

theorem getSlot_setSlot_self (p : Param) (s : Slot) (v : Value) :
    getSlot (setSlot p s v) s = v := by cases s <;> rfl

theorem getSlot_setSlot_ne (p : Param) (s t : Slot) (v : Value) (h : t ≠ s) :
    getSlot (setSlot p t v) s = getSlot p s := by
  cases s <;> cases t <;> first | exact absurd rfl h | rfl

theorem getSlot_withOwner (p : Param) (o : POwner) (s : Slot) :
    getSlot { p with owner := o } s = getSlot p s := by cases s <;> rfl

theorem ptypeSlots_nodup (pt : PType) : (ptypeSlots pt).Nodup := by
  cases pt <;> decide

/-- A fold of slot fills over slots not containing `s` leaves slot `s`
untouched. -/
theorem getSlot_inheritFold_not_mem (ancs : List (Option Param)) (slots : List Slot)
    (p : Param) (s : Slot) (hs : s ∉ slots) :
    getSlot (slots.foldl (fun q t => setSlot q t (resolveSlot (getSlot q t) ancs t)) p) s
      = getSlot p s := by
  induction slots generalizing p with
  | nil => rfl
  | cons t rest ih =>
    rw [List.foldl_cons]
    have hts : t ≠ s := fun h => hs (h ▸ List.mem_cons_self t rest)
    rw [ih _ (fun h => hs (List.mem_cons_of_mem t h)), getSlot_setSlot_ne _ _ _ _ hts]

/-- The slot-fill loop of `__param_inheritance` acts independently per slot:
the final value of slot `s` is `resolveSlot` applied to its initial value. -/
theorem getSlot_inheritFold (ancs : List (Option Param)) (slots : List Slot)
    (p : Param) (s : Slot) :
    s ∈ slots → slots.Nodup →
    getSlot (slots.foldl (fun q t => setSlot q t (resolveSlot (getSlot q t) ancs t)) p) s
      = resolveSlot (getSlot p s) ancs s := by
  induction slots generalizing p with
  | nil => intro hs _; cases hs
  | cons t rest ih =>
    intro hs hnd
    rw [List.foldl_cons]
    by_cases hts : t = s
    · subst hts
      have hnot : t ∉ rest := (List.nodup_cons.mp hnd).1
      rw [getSlot_inheritFold_not_mem ancs rest _ t hnot, getSlot_setSlot_self]
    · have hsrest : s ∈ rest := by
        rcases List.mem_cons.mp hs with h | h
        · exact absurd h.symm hts
        · exact h
      rw [ih _ hsrest (List.nodup_cons.mp hnd).2, getSlot_setSlot_ne _ _ _ _ hts]

/-- The ancestor walk stops as soon as the slot value is non-`None`. -/
theorem resolveSlot_stop (own : Value) (ancs : List (Option Param)) (s : Slot)
    (h : own ≠ Value.none) : resolveSlot own ancs s = own := by
  cases ancs with
  | nil => rfl
  | cons a rest =>
    rw [resolveSlot.eq_def]
    dsimp only
    rw [if_neg h]

/-- One step of the ancestor walk from an unset slot. -/
theorem resolveSlot_cons (a : Option Param) (rest : List (Option Param)) (s : Slot) :
    resolveSlot Value.none (a :: rest) s =
      resolveSlot
        (match a with
          | some q => if hasSlot q s then getSlot q s else Value.none
          | Option.none => Value.none) rest s := by
  rw [resolveSlot.eq_def]
  dsimp only
  rw [if_pos rfl]

/-! ### Write-path lemmas -/

theorem widgetStep_fields (p : Param) (inst : PyInst) (v : Value) (eff : Effects) :
    (widgetStep p inst v eff).1.store = inst.store ∧
    (widgetStep p inst v eff).1.initialized = inst.initialized ∧
    (widgetStep p inst v eff).2.warnings = eff.warnings ∧
    (widgetStep p inst v eff).2.wroteStore = eff.wroteStore := by
  unfold widgetStep
  cases aget inst.widgets p.nm with
  | none => exact ⟨rfl, rfl, rfl, rfl⟩
  | some wv =>
    dsimp only
    by_cases h : wv ≠ v
    · rw [if_pos h]; exact ⟨rfl, rfl, rfl, rfl⟩
    · rw [if_neg h]; exact ⟨rfl, rfl, rfl, rfl⟩

theorem storeWrite_ok (p : Param) (inst : PyInst) (v old : Value)
    (hold : aget inst.store p.attrnm = some old) :
    (storeWrite p inst v).err = Option.none ∧
    (storeWrite p inst v).inst.initialized = inst.initialized ∧
    aget (storeWrite p inst v).inst.store p.attrnm = some v ∧
    (storeWrite p inst v).eff.warnings = [] ∧
    (storeWrite p inst v).eff.wroteStore = true := by
  unfold storeWrite
  rw [hold]
  have hw := widgetStep_fields p { inst with store := aset inst.store p.attrnm v } v
    { debugged := old ≠ v, wroteStore := true }
  refine ⟨rfl, ?_, ?_, ?_, ?_⟩
  · exact hw.2.1
  · rw [hw.1]; exact aget_aset_self inst.store p.attrnm v
  · exact hw.2.2.1
  · exact hw.2.2.2

/-! ### Claim theorems -/

/-- C1: for every truthy-`constant` descriptor, a write through `Param.__set__`
to an initialized instance raises the ImmutableParameter error
(`TypeError('Constant parameter ... cannot be modified')`) and leaves the
instance — in particular its value store — exactly as it was; while the
instance is not yet initialized, any sequence of writes succeeds. -/
theorem c1_constant_enforcement (p : Param) (hc : truthy p.constant = true) :
    (∀ (inst : PyInst) (v : Value), inst.initialized = true →
       paramSetInst p inst v =
         { inst := inst, err := some PyErr.typeErrorConstant }) ∧
    (∀ (inst : PyInst) (vs : List Value), inst.initialized = false →
       (aget inst.store p.attrnm).isSome = true → (writeSeq p inst vs).2 = true) := by
  constructor
  · intro inst v hinit
    simp [paramSetInst, hc, hinit]
  · intro inst vs
    induction vs generalizing inst with
    | nil => intro _ _; rfl
    | cons v rest ih =>
      intro hinit hsome
      have hsw : paramSetInst p inst v = storeWrite p inst v := by
        simp [paramSetInst, hc, hinit]
      rcases Option.isSome_iff_exists.mp hsome with ⟨old, hold⟩
      have hok := storeWrite_ok p inst v old hold
      have hcond : (paramSetInst p inst v).err = Option.none := by rw [hsw]; exact hok.1
      rw [writeSeq, if_pos hcond, hsw]
      exact ih (storeWrite p inst v).inst (hok.2.1.trans hinit)
        (by rw [hok.2.2.1]; rfl)

/-- C1 witness: on a concrete constant parameter, a post-initialization write
raises and leaves the instance untouched, and a pre-initialization sequence
of two writes succeeds. -/
theorem c1_constant_enforcement_witness :
    paramSetInst cP iPost (Value.int 9) =
      { inst := iPost, err := some PyErr.typeErrorConstant } ∧
    (writeSeq cP iPre [Value.int 7, Value.int 8]).2 = true :=
  ⟨(c1_constant_enforcement cP rfl).1 iPost (Value.int 9) rfl,
   (c1_constant_enforcement cP rfl).2 iPre [Value.int 7, Value.int 8] rfl rfl⟩

/-- C3: sibling subclasses `C1`, `C2` of `B` that override `p` only with a
plain default each receive their own fresh descriptor object (heap ids 0, 1,
2 are pairwise distinct), and a class-level assignment `C1.p = v3` rewrites
only `C1`'s descriptor default, leaving `C2`'s and `B`'s defaults unchanged. -/
theorem c3_descriptor_isolation (v3 : Value) :
    pidAt stC2.1 stB.2 "p" = some 0 ∧
    pidAt stC2.1 stC1.2 "p" = some 1 ∧
    pidAt stC2.1 stC2.2 "p" = some 2 ∧
    (dictGetParam (setattrCls stC2.1 stC1.2 "p" (BodyEntry.plainB v3)) stC1.2 "p").map
        (·.dflt) = some v3 ∧
    (dictGetParam (setattrCls stC2.1 stC1.2 "p" (BodyEntry.plainB v3)) stC2.2 "p").map
        (·.dflt) = some (Value.int 3) ∧
    (dictGetParam (setattrCls stC2.1 stC1.2 "p" (BodyEntry.plainB v3)) stB.2 "p").map
        (·.dflt) = some (Value.int 1) :=
  ⟨rfl, rfl, rfl, rfl, rfl, rfl⟩

/-- C5: `Param.copy` never returns a copy at all — for every descriptor of
every variant, the call `type(self)(**{slot: ... for slot in
get_all_slots(type(self)) if slot != 'owner'})` passes the `name` and
`attrname` slots as keywords, which no variant's `__init__` accepts, so the
call raises `TypeError` (and its final `newparam.owner = self.owner` line,
which contradicts the spec's "owner unset", is never even reached). -/
theorem c5_copy_always_raises (p : Param) :
    paramCopy p = Except.error PyErr.typeErrorKwarg := by
  rcases p with ⟨pt, _, _, _, _, _, _, _, _, _, _, _, _⟩
  cases pt <;> rfl

/-- C6: after `D(B)` (empty body) shares `B`'s descriptor (id 0) through its
registry, the class-level assignment `D.p = v` clones the descriptor (fresh
id 1), sets the clone's owner to `D`, installs it in `D.__dict__` and
`D.spec`, and writes `v` as the clone's default, leaving `B`'s descriptor
untouched; a second assignment `D.p = w` then writes through the existing
clone in place (same id, no new allocation). -/
theorem c6_setattr_copy_on_override (v w : Value) :
    pidAt stD.1 stD.2 "p" = Option.none ∧
    specPid stD.1 stD.2 "p" = some 0 ∧
    pidAt (setattrCls stD.1 stD.2 "p" (BodyEntry.plainB v)) stD.2 "p" = some 1 ∧
    specPid (setattrCls stD.1 stD.2 "p" (BodyEntry.plainB v)) stD.2 "p" = some 1 ∧
    (getParam (setattrCls stD.1 stD.2 "p" (BodyEntry.plainB v)) 1).map (·.owner) =
      some (POwner.byClass stD.2) ∧
    (getParam (setattrCls stD.1 stD.2 "p" (BodyEntry.plainB v)) 1).map (·.dflt) =
      some v ∧
    getParam (setattrCls stD.1 stD.2 "p" (BodyEntry.plainB v)) 0 = getParam stD.1 0 ∧
    pidAt (setattrCls (setattrCls stD.1 stD.2 "p" (BodyEntry.plainB v)) stD.2 "p"
        (BodyEntry.plainB w)) stD.2 "p" = some 1 ∧
    (setattrCls (setattrCls stD.1 stD.2 "p" (BodyEntry.plainB v)) stD.2 "p"
        (BodyEntry.plainB w)).nextId =
      (setattrCls stD.1 stD.2 "p" (BodyEntry.plainB v)).nextId ∧
    (getParam (setattrCls (setattrCls stD.1 stD.2 "p" (BodyEntry.plainB v)) stD.2 "p"
        (BodyEntry.plainB w)) 1).map (·.dflt) = some w :=
  ⟨rfl, rfl, rfl, rfl, rfl, rfl, rfl, rfl, rfl, rfl⟩

set_option maxHeartbeats 1600000 in
/-- C10: a constructor keyword whose value is `None` is silently skipped even
when it names the declared parameter `p`: construction succeeds, the
parameter keeps its class default `d`, the keyword is not recorded in
`to_consume`, and it survives (unconsumed) in the kwargs handed on. -/
theorem c10_none_kwarg_skipped (d : Value) :
    (instInit (stP d).1 (stP d).2 [("p", Value.none)]).err = Option.none ∧
    (instInit (stP d).1 (stP d).2 [("p", Value.none)]).consumed = [] ∧
    (instInit (stP d).1 (stP d).2 [("p", Value.none)]).kwargs = [("p", Value.none)] ∧
    instGetAttr (stP d).1 (instInit (stP d).1 (stP d).2 [("p", Value.none)]).inst "p" =
      Except.ok d := by
  cases d <;> exact ⟨rfl, rfl, rfl, rfl⟩

/-- C2: for any class whose mro begins `C :: B :: A :: ...` (a chain of
length at least 3) and any metadata slot `s` of the descriptor `p` being
declared on `C` that is left at the unset sentinel (`None`), when the parent
`B` and grandparent `A` both own same-named descriptors giving `s` the
distinct non-unset values `b` and `a`, the inheritance resolver
(`__param_inheritance`) fills `C`'s slot with the immediate parent's value
`b`, not the grandparent's `a`. -/
theorem c2_resolver_nearest_wins (st : PyState) (cid cidB cidA : Nat)
    (tail : List Nat) (pname : String) (p : Param) (s : Slot) (a b : Value)
    (hmro : (getCls st cid).map (fun c => c.mro) = some (cid :: cidB :: cidA :: tail))
    (hs : s ∈ ptypeSlots p.ptype)
    (hunset : getSlot p s = Value.none)
    (hself : ∀ p0, dictGetParam st cid pname = some p0 →
       (if hasSlot p0 s then getSlot p0 s else Value.none) = Value.none)
    (qB qA : Param)
    (hB : dictGetParam st cidB pname = some qB)
    (hqBs : hasSlot qB s = true) (hqBval : getSlot qB s = b) (hb : b ≠ Value.none)
    (hA : dictGetParam st cidA pname = some qA)
    (hqAs : hasSlot qA s = true) (hqAval : getSlot qA s = a) (ha : a ≠ Value.none)
    (hab : a ≠ b) :
    getSlot (inheritParam st cid pname p) s = b ∧
    getSlot (inheritParam st cid pname p) s ≠ a := by
  have hmain : getSlot (inheritParam st cid pname p) s = b := by
    unfold inheritParam
    rw [hmro]
    dsimp only [Option.getD_some, List.map_cons]
    rw [getSlot_inheritFold _ _ _ s hs (ptypeSlots_nodup p.ptype),
        getSlot_withOwner, hunset, resolveSlot_cons]
    have hselfval :
        (match dictGetParam st cid pname with
          | some q => if hasSlot q s then getSlot q s else Value.none
          | Option.none => Value.none) = Value.none := by
      cases hd : dictGetParam st cid pname with
      | none => rfl
      | some p0 => exact hself p0 hd
    rw [hselfval, hB, resolveSlot_cons]
    dsimp only
    rw [if_pos hqBs, hqBval, resolveSlot_stop _ _ _ hb]
  exact ⟨hmain, by rw [hmain]; exact (Ne.symm hab)⟩

/-- C2 witness: on the concrete chain `A <- B <- C` with `units` `'mm'` on
the grandparent and `'cm'` on the parent, the subclass descriptor's unset
`units` resolves to `'cm'`, not `'mm'`. -/
theorem c2_resolver_nearest_wins_witness :
    getSlot (inheritParam wSt 3 "p" pC0w) Slot.units = Value.str "cm" ∧
    getSlot (inheritParam wSt 3 "p" pC0w) Slot.units ≠ Value.str "mm" :=
  c2_resolver_nearest_wins wSt 3 2 1 [0] "p" pC0w Slot.units
    (Value.str "mm") (Value.str "cm") rfl (by decide) rfl
    (by
      intro p0 h
      have h2 : pC0w = p0 :=
        Option.some.inj ((show dictGetParam wSt 3 "p" = some pC0w from rfl).symm.trans h)
      subst h2
      decide)
    pBw pAw rfl rfl rfl (by decide) rfl rfl rfl (by decide) (by decide)

/-- C4 counterexample: writing the current value (5) through a non-constant
descriptor to an initialized instance still performs the storage assignment
(`obj.__dict__[self.attrname] = value` is unconditional in `Param.__set__`),
contradicting the claim that no storage write occurs. -/
theorem c4_equal_write_counterexample :
    aget iQ.store nP.attrnm = some (Value.int 5) ∧
    (paramSetInst nP iQ (Value.int 5)).err = Option.none ∧
    (paramSetInst nP iQ (Value.int 5)).eff.wroteStore = true :=
  ⟨rfl, rfl, rfl⟩

/-- C4 amended: writing a value equal to the current value through a
non-constant descriptor (with no widget attached to the parameter) invokes
no change notification (`obj.debug` is skipped, no widget push) and leaves
the stored value unchanged, but the storage assignment itself still runs:
the write is not skipped. -/
theorem c4_equal_write_noop_amended (p : Param) (inst : PyInst) (v : Value)
    (hc : truthy p.constant = false) (hinit : inst.initialized = true)
    (hcur : aget inst.store p.attrnm = some v)
    (hw : aget inst.widgets p.nm = Option.none) :
    (paramSetInst p inst v).err = Option.none ∧
    (paramSetInst p inst v).eff.debugged = false ∧
    (paramSetInst p inst v).eff.widgetSet = false ∧
    (paramSetInst p inst v).eff.wroteStore = true ∧
    (paramSetInst p inst v).inst.store = inst.store := by
  have hps : paramSetInst p inst v = storeWrite p inst v := by
    simp [paramSetInst, hc]
  rw [hps]
  unfold storeWrite
  rw [hcur]
  dsimp only
  rw [aset_self inst.store p.attrnm v hcur]
  unfold widgetStep
  dsimp only
  rw [hw]
  refine ⟨rfl, by simp, rfl, rfl, rfl⟩

/-- C4 witness for the amended claim at a concrete equal write. -/
theorem c4_equal_write_noop_amended_witness :
    (paramSetInst nP iQ (Value.int 5)).err = Option.none ∧
    (paramSetInst nP iQ (Value.int 5)).eff.debugged = false ∧
    (paramSetInst nP iQ (Value.int 5)).eff.widgetSet = false ∧
    (paramSetInst nP iQ (Value.int 5)).eff.wroteStore = true ∧
    (paramSetInst nP iQ (Value.int 5)).inst.store = iQ.store :=
  c4_equal_write_noop_amended nP iQ (Value.int 5) rfl rfl rfl rfl

/-- C7 counterexample: a write of 99 through `Range(default=5, start=0,
end=10)` to an initialized instance commits the out-of-range value but emits
no warning at all — `Param.__set__` contains no range check — contradicting
the claim that a non-fatal warning is emitted. -/
theorem c7_range_counterexample :
    rP.ptype = PType.range ∧ rP.start = Value.int 0 ∧ rP.stop = Value.int 10 ∧
    (paramSetInst rP iR (Value.int 99)).err = Option.none ∧
    (paramSetInst rP iR (Value.int 99)).eff.warnings = [] ∧
    aget (paramSetInst rP iR (Value.int 99)).inst.store rP.attrnm =
      some (Value.int 99) :=
  ⟨rfl, rfl, rfl, rfl, rfl, rfl⟩

/-- C7 amended: a write through a (non-constant) `Range` descriptor of a
value outside `[start, end]` succeeds, commits the value to instance
storage, and emits no warning — bounds are never consulted on the write
path (only the separate `check_range` diagnostic reads them). -/
theorem c7_range_advisory_amended (p : Param) (inst : PyInst) (n lo hi : Int)
    (hp : p.ptype = PType.range) (hlo : p.start = Value.int lo)
    (hhi : p.stop = Value.int hi) (hout : n < lo ∨ hi < n)
    (hc : truthy p.constant = false)
    (hold : (aget inst.store p.attrnm).isSome = true) :
    (paramSetInst p inst (Value.int n)).err = Option.none ∧
    (paramSetInst p inst (Value.int n)).eff.warnings = [] ∧
    aget (paramSetInst p inst (Value.int n)).inst.store p.attrnm =
      some (Value.int n) := by
  rcases Option.isSome_iff_exists.mp hold with ⟨old, h⟩
  have hps : paramSetInst p inst (Value.int n) = storeWrite p inst (Value.int n) := by
    simp [paramSetInst, hc]
  have hok := storeWrite_ok p inst (Value.int n) old h
  rw [hps]
  exact ⟨hok.1, hok.2.2.2.1, hok.2.2.1⟩

/-- C7 witness for the amended claim: the concrete out-of-range write. -/
theorem c7_range_advisory_amended_witness :
    (paramSetInst rP iR (Value.int 99)).err = Option.none ∧
    (paramSetInst rP iR (Value.int 99)).eff.warnings = [] ∧
    aget (paramSetInst rP iR (Value.int 99)).inst.store rP.attrnm =
      some (Value.int 99) :=
  c7_range_advisory_amended rP iR 99 0 10 rfl rfl rfl (Or.inr (by decide)) rfl rfl

/-- C8 counterexample: a second `add_param('p', ...)` on the same instance
with a different descriptor object (heap ids 0 and 1) succeeds instead of
failing with a NameConflict error. -/
theorem c8_add_param_counterexample :
    (addFst (Value.int 1)).err = Option.none ∧
    (addFst (Value.int 1)).inst.specLocal = [("p", 0)] ∧
    (addSnd (Value.int 1) (Value.int 2)).err = Option.none ∧
    (addSnd (Value.int 1) (Value.int 2)).inst.specLocal = [("p", 1)] :=
  ⟨rfl, rfl, rfl, rfl⟩

/-- C8 amended: `add_param` records the descriptor only in the calling
instance's `spec_local` registry and leaves the class `spec` registry
unchanged, but it does install the descriptor into the class `__dict__`
(via `type.__setattr__`); a collision with an existing class-level
declaration only warns and proceeds, and a repeated `add_param` of the same
name with a different descriptor object succeeds (replacing the local
entry), since the raise happens only when the parameter name itself is a
key of the raw instance `__dict__`. -/
theorem c8_add_param_amended (a b : Value) :
    (addFst a).err = Option.none ∧
    (addFst a).warned = false ∧
    (addFst a).inst.specLocal = [("p", 0)] ∧
    specPid (addFst a).st stE.2 "p" = Option.none ∧
    pidAt (addFst a).st stE.2 "p" = some 0 ∧
    (addSnd a b).err = Option.none ∧
    (addSnd a b).warned = true ∧
    (addSnd a b).inst.specLocal = [("p", 1)] ∧
    specPid (addSnd a b).st stE.2 "p" = Option.none :=
  ⟨rfl, rfl, rfl, rfl, rfl, rfl, rfl, rfl, rfl⟩

/-- C9 counterexample: after setting `alpha` to `None` post-construction,
the round trip silently reverts `alpha` to its class default 1 (the
`None`-valued keyword is skipped during re-construction), so the rebuilt
instance's `items()` differ from the original's. -/
theorem c9_round_trip_counterexample :
    roundTripItems stM.1 stM.2 x3 =
      Except.ok [("alpha", Value.int 1), ("beta", Value.int 2)] ∧
    instItems stM.1 x3 =
      Except.ok [("alpha", Value.none), ("beta", Value.int 2)] :=
  ⟨rfl, rfl⟩

set_option maxHeartbeats 4000000 in
/-- C9 amended: for an instance of `M` whose current parameter values are
(scalar and) non-`None`, reconstructing from the `to_dict` export with the
reserved `_spec_class` key removed yields an instance with identical
`items()`. -/
theorem c9_round_trip_amended (v1 v2 : Value)
    (h1 : v1 ≠ Value.none) (h2 : v2 ≠ Value.none) :
    roundTripItems stM.1 stM.2 (xM v1 v2) = instItems stM.1 (xM v1 v2) := by
  cases v1 <;> cases v2 <;>
    first
      | exact absurd rfl h1
      | exact absurd rfl h2
      | rfl

/-- C9 witness for the amended claim at concrete non-`None` values. -/
theorem c9_round_trip_amended_witness :
    roundTripItems stM.1 stM.2 (xM (Value.int 5) (Value.int 7)) =
      instItems stM.1 (xM (Value.int 5) (Value.int 7)) :=
  c9_round_trip_amended (Value.int 5) (Value.int 7) (by decide) (by decide)

end Specify
